import Mathlib

/-!
Shallow embedding of the pythorrent BitTorrent client (pythorrent/pieces.py,
pythorrent/peer.py, pythorrent/peer_stores.py, pythorrent/torrent.py).

Bytes are naturals below 256; byte strings are lists of naturals.  Machine
arithmetic is `Nat` with explicit `% 2^32` truncation where the Python code
relies on fixed-width words (inside SHA-1).  Fallible code is `Except`.
-/

set_option maxRecDepth 10000

namespace Pythorrent

/-- Byte strings: lists of naturals (each intended < 256). -/
abbrev Bytes := List Nat

/-! ## SHA-1 (model of Python hashlib.sha1, used by pieces.py) -/

/-- Truncate to a 32-bit word. -/
def w32 (n : Nat) : Nat := n % 4294967296

/-- 32-bit left rotation by b bits. -/
def rotl (b n : Nat) : Nat := w32 ((n <<< b) ||| (n >>> (32 - b)))

/-- Big-endian 32-bit word from four bytes. -/
def word (a b c d : Nat) : Nat := (a <<< 24) ||| (b <<< 16) ||| (c <<< 8) ||| d

/-- Group bytes into big-endian 32-bit words (length a multiple of 4). -/
def toWords : List Nat → List Nat
  | a :: b :: c :: d :: rest => word a b c d :: toWords rest
  | _ => []

/-- k bytes of n, big-endian. -/
def beBytes (k n : Nat) : List Nat :=
  (List.range k).map (fun i => (n >>> (8 * (k - 1 - i))) % 256)

/-- SHA-1 padding: 0x80, zeros to 56 mod 64, then the bit length on 8 bytes. -/
def sha1pad (msg : Bytes) : Bytes :=
  msg ++ [128] ++ List.replicate ((119 - (msg.length % 64)) % 64) 0
      ++ beBytes 8 (8 * msg.length)

/-- Split into 64-byte blocks (structural recursion on a fuel bound so that
the kernel can evaluate it; fuel = list length always suffices because every
step consumes at least one element). -/
def chunks64Go : Nat → List Nat → List (List Nat)
  | 0, _ => []
  | _, [] => []
  | fuel + 1, l => l.take 64 :: chunks64Go fuel (l.drop 64)

/-- Split into 64-byte blocks. -/
def chunks64 (l : List Nat) : List (List Nat) := chunks64Go l.length l

/-- Extend the 16 message words by n further schedule words. -/
def extendWords (w : List Nat) : Nat → List Nat
  | 0 => w
  | n + 1 =>
    let ws := extendWords w n
    let k := ws.length
    ws ++ [rotl 1 ((ws.getD (k - 3) 0) ^^^ (ws.getD (k - 8) 0) ^^^
                   (ws.getD (k - 14) 0) ^^^ (ws.getD (k - 16) 0))]

/-- The five 32-bit state words of SHA-1. -/
structure Sha1State where
  a : Nat
  b : Nat
  c : Nat
  d : Nat
  e : Nat

/-- Round function and constant for round i. -/
def fk (i b c d : Nat) : Nat × Nat :=
  if i < 20 then ((b &&& c) ||| ((b ^^^ 4294967295) &&& d), 1518500249)
  else if i < 40 then (b ^^^ c ^^^ d, 1859775393)
  else if i < 60 then ((b &&& c) ||| (b &&& d) ||| (c &&& d), 2400959708)
  else (b ^^^ c ^^^ d, 3395469782)

/-- One SHA-1 round on the state, fed round index and schedule word. -/
def sha1round (st : Sha1State) (iw : Nat × Nat) : Sha1State :=
  let f := (fk iw.1 st.b st.c st.d).1
  let k := (fk iw.1 st.b st.c st.d).2
  let temp := w32 (rotl 5 st.a + f + st.e + k + iw.2)
  ⟨temp, st.a, rotl 30 st.b, st.c, st.d⟩

/-- Compress one 64-byte block into the running state. -/
def sha1block (h : Sha1State) (block : List Nat) : Sha1State :=
  let ws := extendWords (toWords block) 64
  let st := ((List.range 80).zip ws).foldl sha1round h
  ⟨w32 (h.a + st.a), w32 (h.b + st.b), w32 (h.c + st.c),
   w32 (h.d + st.d), w32 (h.e + st.e)⟩

/-- SHA-1 digest of a byte string, as a 20-byte string. -/
def sha1 (msg : Bytes) : Bytes :=
  let st := (chunks64 (sha1pad msg)).foldl sha1block
    ⟨1732584193, 4023233417, 2562383102, 271733878, 3285377520⟩
  beBytes 4 st.a ++ beBytes 4 st.b ++ beBytes 4 st.c ++ beBytes 4 st.d ++ beBytes 4 st.e

/-- Lower-case hex digit. -/
def hexChar (n : Nat) : Char := if n < 10 then Char.ofNat (48 + n) else Char.ofNat (87 + n)

/-- Two hex digits of one byte. -/
def hexByte (b : Nat) : List Char := [hexChar (b / 16), hexChar (b % 16)]

/-- Hex string of a byte string. -/
def hexOfBytes (bs : Bytes) : String := String.mk (bs.flatMap hexByte)

/-- The byte string "hello". -/
def helloBytes : Bytes := [104, 101, 108, 108, 111]

/-- The byte string "hell". -/
def hellBytes : Bytes := [104, 101, 108, 108]

/-! ## pieces.py : Piece, PieceRemote, PieceLocal -/

/-- A piece: the expected 20-byte SHA-1 and the data accumulated so far
(pieces.py, class Piece). -/
structure Piece where
  sha : Bytes
  data : Bytes

namespace Piece

/-- Piece.digest: sha1 of the data in the piece as a binary string. -/
def digest (p : Piece) : Bytes := sha1 p.data

/-- Piece.hex: sha1 of the data in the piece as a hex string. -/
def hex (p : Piece) : String := hexOfBytes (sha1 p.data)

/-- Piece.size: length of the data so far. -/
def size (p : Piece) : Nat := p.data.length

/-- Piece.valid: self.sha == self.digest. -/
def valid (p : Piece) : Bool := p.sha == p.digest

/-- Piece.file_name: the FILE_NAME_TEMPLATE "{hex}" filled with self.hex. -/
def file_name (p : Piece) : String := p.hex

/-- Piece.piece_path: os.path.join(save_dir, self.file_name), with paths as
segment lists. -/
def piece_path (p : Piece) (save_dir : List String) : List String :=
  save_dir ++ [p.file_name]

/-- Piece.clear: empty out the data. -/
def clear (p : Piece) : Piece := { p with data := [] }

/-- Piece.__eq__: compares the expected hashes only. -/
def eq (p o : Piece) : Bool := p.sha == o.sha

end Piece

/-- PieceRemote.insert_block: with right_index = index + len(data), the buffer
becomes self.data[:index] + data + self.data[right_index:] (Python slices of
nonnegative indices). -/
def insert_block (p : Piece) (index : Nat) (d : Bytes) : Piece :=
  { p with data := p.data.take index ++ d ++ p.data.drop (index + d.length) }

/-- Python list.index(x) as used on piece lists (torrent.py advertise_piece,
peer.py acquire): index of the first element for which __eq__ x holds. -/
def list_index (l : List Piece) (x : Piece) : Option Nat :=
  l.findIdx? (fun y => Piece.eq y x)

/-! ## Theorems for C1, C2, C10 -/

/-- C1: for every Piece p, p.valid holds iff the SHA-1 digest of p.data equals
p.sha, and p.size equals the length of p.data; with sha = SHA-1("hello"), data
"hello" is valid, and data "hell" is invalid with size 4. -/
theorem C1_piece_valid_iff_sha :
    (∀ p : Piece, (p.valid = true ↔ sha1 p.data = p.sha) ∧ p.size = p.data.length)
    ∧ (Piece.mk (sha1 helloBytes) helloBytes).valid = true
    ∧ (Piece.mk (sha1 helloBytes) hellBytes).valid = false
    ∧ (Piece.mk (sha1 helloBytes) hellBytes).size = 4 := by
  refine ⟨fun p => ⟨?_, rfl⟩, ?_, ?_, rfl⟩
  · simp only [Piece.valid, Piece.digest, beq_iff_eq]
    exact eq_comm
  · simp only [Piece.valid, Piece.digest]
    exact beq_self_eq_true _
  · decide

/-- C2 counterexample: inserting a block of 16384 bytes 0x41 at begin 16384
into an empty buffer does not produce the claimed 32768-byte buffer of 16384
zeros followed by the block; the buffer is not zero-extended. -/
theorem C2_counterexample :
    ¬ ((insert_block ⟨[], []⟩ 16384 (List.replicate 16384 65)).data
        = List.replicate 16384 0 ++ List.replicate 16384 65) := by
  intro h
  have hlen := congrArg List.length h
  simp only [insert_block, List.take_nil, List.drop_nil, List.nil_append,
    List.append_nil, List.length_append, List.length_replicate] at hlen
  omega

/-- C2 amended: insert_block(begin, d) copies d into buffer positions
begin .. begin+|d|-1 and keeps the prefix when begin is at most the buffer
length, but does not zero-fill gaps: when begin is at least the buffer length
the result is simply buffer ++ d; in particular, on an empty buffer with
begin = 16384 and 16384 bytes of 0x41 the result is the 16384 bytes of 0x41
alone. -/
theorem C2_insert_block_amended :
    (∀ (p : Piece) (i : Nat) (d : Bytes), i ≤ p.data.length →
      ((insert_block p i d).data.length = max (i + d.length) p.data.length
        ∧ (∀ k, k < d.length → (insert_block p i d).data.getD (i + k) 0 = d.getD k 0)
        ∧ (∀ k, k < i → (insert_block p i d).data.getD k 0 = p.data.getD k 0)))
    ∧ (∀ (p : Piece) (i : Nat) (d : Bytes), p.data.length ≤ i →
        (insert_block p i d).data = p.data ++ d)
    ∧ (insert_block ⟨[], []⟩ 16384 (List.replicate 16384 65)).data
        = List.replicate 16384 65 := by
  refine ⟨fun p i d hi => ⟨?_, fun k hk => ?_, fun k hk => ?_⟩,
    fun p i d hi => ?_,
    by simp only [insert_block, List.take_nil, List.drop_nil, List.nil_append,
      List.append_nil]⟩
  · simp only [insert_block, List.length_append, List.length_take, List.length_drop]
    omega
  · have h1 : (p.data.take i).length = i := by
      rw [List.length_take]; omega
    simp only [insert_block]
    rw [List.append_assoc, List.getD_append_right _ _ _ _ (by rw [h1]; omega),
      h1, Nat.add_sub_cancel_left, List.getD_append _ _ _ _ hk]
  · have h1 : (p.data.take i).length = i := by
      rw [List.length_take]; omega
    simp only [insert_block]
    rw [List.append_assoc, List.getD_append _ _ _ _ (by rw [h1]; omega)]
    simp only [List.getD, List.get?_eq_getElem?, List.getElem?_take_of_lt hk]
  · simp only [insert_block]
    rw [List.take_of_length_le hi, List.drop_eq_nil_of_le (by omega),
      List.append_nil]

/-- C2 amended, witness: buffer [9,9,9], begin 2, block [7]: position 2 of the
result holds 7, position 0 is untouched, and an append happens at begin 3. -/
theorem C2_insert_block_amended_witness :
    (2 ≤ (Piece.mk [] [9, 9, 9]).data.length
      ∧ (insert_block ⟨[], [9, 9, 9]⟩ 2 [7]).data.getD (2 + 0) 0
          = ([7] : Bytes).getD 0 0
      ∧ (insert_block ⟨[], [9, 9, 9]⟩ 2 [7]).data.getD 0 0
          = (Piece.mk [] [9, 9, 9]).data.getD 0 0)
    ∧ ((Piece.mk [] [9, 9, 9]).data.length ≤ 3
      ∧ (insert_block ⟨[], [9, 9, 9]⟩ 3 [7]).data = (Piece.mk [] [9, 9, 9]).data ++ [7]) :=
  ⟨⟨by decide,
    (C2_insert_block_amended.1 ⟨[], [9, 9, 9]⟩ 2 [7] (by decide)).2.1 0 (by decide),
    (C2_insert_block_amended.1 ⟨[], [9, 9, 9]⟩ 2 [7] (by decide)).2.2 0 (by decide)⟩,
   by decide,
   C2_insert_block_amended.2.1 ⟨[], [9, 9, 9]⟩ 3 [7] (by decide)⟩

/-- C10: Piece equality holds iff the expected hashes agree, regardless of the
data buffers; a piece with any buffer equals one with the same expected hash;
and Python list.index on piece lists resolves by expected hash alone. -/
theorem C10_piece_eq_by_sha :
    (∀ p q : Piece, Piece.eq p q = true ↔ p.sha = q.sha)
    ∧ (∀ (s d1 d2 : Bytes), Piece.eq ⟨s, d1⟩ ⟨s, d2⟩ = true)
    ∧ (∀ (l : List Piece) (x : Piece),
        list_index l x = (l.map Piece.sha).findIdx? (fun s => s == x.sha)) := by
  refine ⟨fun p q => ?_, fun s d1 d2 => ?_, fun l x => ?_⟩
  · simp [Piece.eq]
  · simp [Piece.eq]
  · rw [list_index, List.findIdx?_map]
    rfl

/-! ## peer.py : Peer (status machine, recv_request, send_piece) -/

/-- peer.py ESTATUS.BAD. -/
def ESTATUS_BAD : Int := -3

/-- peer.py ESTATUS.NOT_STARTED. -/
def ESTATUS_NOT_STARTED : Int := -2

/-- peer.py ESTATUS.CLOSED. -/
def ESTATUS_CLOSED : Int := -1

/-- peer.py ESTATUS.CHOKE. -/
def ESTATUS_CHOKE : Int := 0

/-- peer.py ESTATUS.OK. -/
def ESTATUS_OK : Int := 1

/-- peer.py BLOCK_SIZE = pow(2, 14). -/
def BLOCK_SIZE : Nat := 2 ^ 14

/-- The peer state touched by recv_request / send_piece: connection status,
running uploaded byte count, and self.pieces.values() (the per-peer piece
list). -/
structure PeerModel where
  status : Int
  uploaded : Nat
  pieces : List Piece

/-- Peer.bad: close the connection and mark the peer bad (status = BAD). -/
def Peer.bad (p : PeerModel) : PeerModel := { p with status := ESTATUS_BAD }

/-- Python s[i:j] for nonnegative i and j: elements at positions i .. j-1. -/
def pySlice (l : Bytes) (i j : Nat) : Bytes := (l.take j).drop i

/-- Outcome of Peer.recv_request: resulting peer state, the piece message sent
(index, begin, block) if any, and whether an exception was raised. -/
structure RecvRequestResult where
  peer : PeerModel
  sent : Option (Nat × Nat × Bytes)
  raised : Bool

/-- Peer.recv_request after unpacking the payload into (index, begin, size):
an oversize request is bad() plus a raise with nothing sent; otherwise
data = self.pieces.values()[index].data[begin:size] is passed to
send_piece(index, begin, data), which sends the piece message and adds
len(data) to self.uploaded. -/
def recv_request (p : PeerModel) (index bgn size : Nat) : RecvRequestResult :=
  if size > BLOCK_SIZE then
    { peer := Peer.bad p, sent := none, raised := true }
  else
    let d := pySlice ((p.pieces.getD index ⟨[], []⟩).data) bgn size
    { peer := { p with uploaded := p.uploaded + d.length },
      sent := some (index, bgn, d), raised := false }

/-- The reconnection test of the driver loop (torrent.py run): a known peer is
reopened only while NOT_STARTED or CLOSED, so BAD is sticky. -/
def should_reconnect (status : Int) : Bool :=
  status == ESTATUS_NOT_STARTED || status == ESTATUS_CLOSED

/-- A Python slice s[i:j] with j ≤ i is empty. -/
theorem pySlice_eq_nil (l : Bytes) {i j : Nat} (h : j ≤ i) : pySlice l i j = [] := by
  apply List.drop_eq_nil_of_le
  calc (l.take j).length ≤ j := by rw [List.length_take]; omega
    _ ≤ i := h

/-- The peer of the C3 failing input: one local piece of 32768 bytes. -/
def c3peer : PeerModel :=
  { status := ESTATUS_OK, uploaded := 0,
    pieces := [⟨sha1 (List.replicate 32768 7), List.replicate 32768 7⟩] }

/-- C3 divergence: a request for piece 0, begin 16384, length 16384 against a
32768-byte piece passes the size check, but the code slices
data[begin:size] = data[16384:16384], so the piece message sent carries the
empty block instead of bytes 16384..32767, and uploaded stays 0 instead of
growing by 16384. -/
theorem C3_recv_request_wrong_slice :
    (recv_request c3peer 0 16384 16384).sent = some (0, 16384, [])
    ∧ (recv_request c3peer 0 16384 16384).peer.uploaded = 0
    ∧ (recv_request c3peer 0 16384 16384).raised = false
    ∧ pySlice (List.replicate 32768 7) 16384 (16384 + 16384) ≠ [] := by
  have hs : pySlice ((c3peer.pieces.getD 0 ⟨[], []⟩).data) 16384 16384 = [] :=
    pySlice_eq_nil _ (Nat.le_refl _)
  have hb : ¬ (16384 > BLOCK_SIZE) := by decide
  refine ⟨?_, ?_, ?_, ?_⟩
  · simp only [recv_request, if_neg hb, hs]
  · simp only [recv_request, if_neg hb, hs, List.length_nil, Nat.add_zero]
    rfl
  · simp only [recv_request, if_neg hb]
  · intro h
    have hlen := congrArg List.length h
    simp only [pySlice, List.length_drop, List.length_take,
      List.length_replicate, List.length_nil] at hlen
    omega

/-- C6: a received request whose length field exceeds BLOCK_SIZE = 16384 makes
the peer transition to BAD, raises, sends no piece reply, and BAD is sticky
(the driver loop never reopens a BAD peer). -/
theorem C6_oversize_request_is_fatal (p : PeerModel) (index bgn size : Nat)
    (h : size > BLOCK_SIZE) :
    (recv_request p index bgn size).peer.status = ESTATUS_BAD
    ∧ (recv_request p index bgn size).raised = true
    ∧ (recv_request p index bgn size).sent = none
    ∧ should_reconnect ESTATUS_BAD = false := by
  refine ⟨?_, ?_, ?_, by decide⟩ <;>
    simp only [recv_request, if_pos h, Peer.bad]

/-- C6 witness: a request of length 16385 on a fresh peer. -/
theorem C6_oversize_request_is_fatal_witness :
    16385 > BLOCK_SIZE
    ∧ ((recv_request ⟨ESTATUS_OK, 0, []⟩ 0 0 16385).peer.status = ESTATUS_BAD
      ∧ (recv_request ⟨ESTATUS_OK, 0, []⟩ 0 0 16385).raised = true
      ∧ (recv_request ⟨ESTATUS_OK, 0, []⟩ 0 0 16385).sent = none
      ∧ should_reconnect ESTATUS_BAD = false) :=
  ⟨by decide, C6_oversize_request_is_fatal ⟨ESTATUS_OK, 0, []⟩ 0 0 16385 (by decide)⟩

/-! ## peer_stores.py : Tracker (announce scheduling) -/

/-- peer_stores.py Tracker.TRACKER_INTERVAL = 1800 seconds. -/
def TRACKER_INTERVAL : Int := 1800

/-- Tracker state: last_run (optional timestamp), tracker_interval, and the
stored mapping self._peers from (ip, port) to Peer. Time is integer seconds. -/
structure TrackerModel where
  last_run : Option Int
  tracker_interval : Int
  peersMap : List ((String × Nat) × PeerModel)

/-- Tracker.next_run: last_run + delta, with delta = tracker_interval
seconds. -/
def next_run (last_run interval : Int) : Int := last_run + interval

/-- Tracker.ok_to_announce: True when last_run is unset, else now >
next_run. -/
def ok_to_announce (t : TrackerModel) (now : Int) : Bool :=
  match t.last_run with
  | none => true
  | some lr => now > next_run lr t.tracker_interval

/-- Python dict.update on an association list: values of existing keys are
overridden, new keys are appended. -/
def dict_update {K V : Type} [BEq K] (old upd : List (K × V)) : List (K × V) :=
  old.map (fun kv => ((upd.find? (fun kv2 => kv2.1 == kv.1)).getD kv))
    ++ upd.filter (fun kv2 => ¬ old.any (fun kv => kv.1 == kv2.1))

/-- Tracker.peers property: when ok_to_announce, announce and merge the
result into self._peers with dict.update; otherwise return the stored map.
The network result of announce() is a parameter; the Bool records whether an
announce was performed. -/
def tracker_peers (t : TrackerModel) (now : Int)
    (announce_result : List ((String × Nat) × PeerModel)) :
    List ((String × Nat) × PeerModel) × Bool :=
  if ok_to_announce t now then (dict_update t.peersMap announce_result, true)
  else (t.peersMap, false)

/-- C4: ok_to_announce is true iff last_run is None or now > last_run +
tracker_interval; unset last_run gives true; last_run = now - 10 with interval
1800 gives false; last_run = now - 1801 with interval 1800 gives true. -/
theorem C4_ok_to_announce_iff (t : TrackerModel) (now : Int) :
    (ok_to_announce t now = true ↔
      (t.last_run = none
        ∨ ∃ lr, t.last_run = some lr ∧ now > lr + t.tracker_interval))
    ∧ ok_to_announce ⟨none, 1800, []⟩ now = true
    ∧ ok_to_announce ⟨some (now - 10), 1800, []⟩ now = false
    ∧ ok_to_announce ⟨some (now - 1801), 1800, []⟩ now = true := by
  refine ⟨?_, rfl, ?_, ?_⟩
  · cases h : t.last_run with
    | none => simp [ok_to_announce, h]
    | some lr => simp [ok_to_announce, h, next_run]
  · simp only [ok_to_announce, next_run, decide_eq_false_iff_not, not_lt]
    omega
  · simp only [ok_to_announce, next_run, decide_eq_true_eq]
    omega

/-- C5: when an announce is forbidden (ok_to_announce is false), reading the
peers property performs no announce and returns the stored (ip, port) → Peer
mapping unchanged. -/
theorem C5_peers_frame_when_forbidden (t : TrackerModel) (now : Int)
    (r : List ((String × Nat) × PeerModel))
    (h : ok_to_announce t now = false) :
    tracker_peers t now r = (t.peersMap, false) := by
  simp only [tracker_peers, h, Bool.false_eq_true, if_false]

/-- C5 witness: a tracker last announced at time 0 with interval 1800, read at
time 100 with a nonempty stored map and a nonempty pending announce result. -/
theorem C5_peers_frame_when_forbidden_witness :
    ok_to_announce ⟨some 0, 1800, [(("10.0.0.1", 6881), ⟨ESTATUS_OK, 0, []⟩)]⟩ 100 = false
    ∧ tracker_peers ⟨some 0, 1800, [(("10.0.0.1", 6881), ⟨ESTATUS_OK, 0, []⟩)]⟩ 100
        [(("192.168.1.1", 6881), ⟨ESTATUS_NOT_STARTED, 0, []⟩)]
      = ([(("10.0.0.1", 6881), ⟨ESTATUS_OK, 0, []⟩)], false) :=
  ⟨by decide,
   C5_peers_frame_when_forbidden ⟨some 0, 1800, [(("10.0.0.1", 6881), ⟨ESTATUS_OK, 0, []⟩)]⟩
     100 [(("192.168.1.1", 6881), ⟨ESTATUS_NOT_STARTED, 0, []⟩)] (by decide)⟩

/-! ## torrent.py : handshake_message -/

/-- torrent.py PROTOCOL_ID = "BitTorrent protocol" as bytes (19 bytes). -/
def PROTOCOL_ID : Bytes :=
  [66, 105, 116, 84, 111, 114, 114, 101, 110, 116, 32,
   112, 114, 111, 116, 111, 99, 111, 108]

/-- torrent.py RESERVED_AREA = eight zero bytes. -/
def RESERVED_AREA : Bytes := List.replicate 8 0

/-- Torrent.handshake_message: chr(len(PROTOCOL_ID)) + PROTOCOL_ID +
RESERVED_AREA + info_hash + peer_id. -/
def handshake_message (info_hash peer_id : Bytes) : Bytes :=
  [PROTOCOL_ID.length] ++ PROTOCOL_ID ++ RESERVED_AREA ++ info_hash ++ peer_id

/-- C7: with a 20-byte info_hash and a 20-byte peer_id, handshake_message is
68 bytes: byte 0 is 19, bytes 1..19 are "BitTorrent protocol", then 8 zero
bytes, the 20-byte info_hash, and the 20-byte peer_id. -/
theorem C7_handshake_layout (ih pid : Bytes)
    (h1 : ih.length = 20) (h2 : pid.length = 20) :
    (handshake_message ih pid).length = 68
    ∧ (handshake_message ih pid).take 1 = [19]
    ∧ ((handshake_message ih pid).drop 1).take 19 = PROTOCOL_ID
    ∧ ((handshake_message ih pid).drop 20).take 8 = List.replicate 8 0
    ∧ ((handshake_message ih pid).drop 28).take 20 = ih
    ∧ (handshake_message ih pid).drop 48 = pid := by
  have hmsg : handshake_message ih pid
      = [19, 66, 105, 116, 84, 111, 114, 114, 101, 110, 116, 32,
         112, 114, 111, 116, 111, 99, 111, 108, 0, 0, 0, 0, 0, 0, 0, 0]
        ++ (ih ++ pid) := rfl
  refine ⟨?_, rfl, rfl, rfl, ?_, ?_⟩
  · rw [hmsg]
    simp only [List.length_append, List.length_cons, List.length_nil, h1, h2]
  · show List.take 20 (ih ++ pid) = ih
    exact List.take_left' h1
  · show List.drop 20 (ih ++ pid) = pid
    exact List.drop_left' h1

/-- C7 witness: info_hash of 20 zero bytes and peer_id "-PY0001-AAAAAAAAAAAA". -/
theorem C7_handshake_layout_witness :
    (List.replicate 20 0 : Bytes).length = 20
    ∧ ([45, 80, 89, 48, 48, 48, 49, 45, 65, 65, 65, 65, 65, 65,
        65, 65, 65, 65, 65, 65] : Bytes).length = 20
    ∧ (handshake_message (List.replicate 20 0)
        [45, 80, 89, 48, 48, 48, 49, 45, 65, 65, 65, 65, 65, 65,
         65, 65, 65, 65, 65, 65]).length = 68
    ∧ (handshake_message (List.replicate 20 0)
        [45, 80, 89, 48, 48, 48, 49, 45, 65, 65, 65, 65, 65, 65,
         65, 65, 65, 65, 65, 65]).take 1 = [19]
    ∧ ((handshake_message (List.replicate 20 0)
        [45, 80, 89, 48, 48, 48, 49, 45, 65, 65, 65, 65, 65, 65,
         65, 65, 65, 65, 65, 65]).drop 1).take 19 = PROTOCOL_ID :=
  ⟨by decide, by decide,
   (C7_handshake_layout (List.replicate 20 0) _ (by decide) (by decide)).1,
   (C7_handshake_layout (List.replicate 20 0) _ (by decide) (by decide)).2.1,
   (C7_handshake_layout (List.replicate 20 0) _ (by decide) (by decide)).2.2.1⟩

/-! ## torrent.py : startup piece population (the pieces property) -/

/-- A filesystem snapshot: file contents by path, paths being segment
lists. -/
def FS : Type := List String → Option Bytes

/-- PieceLocal.load: read the file at self.piece_path(piece_dir) into the
buffer; a missing file is an IOError. -/
def PieceLocal.load (fs : FS) (p : Piece) (piece_dir : List String) :
    Except String Piece :=
  match fs (p.piece_path piece_dir) with
  | some d => .ok { p with data := d }
  | none => .error "IOError"

/-- One iteration of the Torrent.pieces population loop for one expected
hash: build the piece with empty data, probe os.path.isfile on
piece.piece_path(self.piece_directory), and when a file is there call
piece.load(piece_path) (the source passes the file path where load expects a
directory) and then raise Exception("Not valid") when the loaded piece does
not validate — the logging and piece.clear() lines sit behind that raise. -/
def populate_step (fs : FS) (piece_directory : List String) (h : Bytes) :
    Except String Piece :=
  let piece : Piece := ⟨h, []⟩
  let pp := piece.piece_path piece_directory
  match fs pp with
  | some _ =>
    match PieceLocal.load fs piece pp with
    | .error e => .error e
    | .ok p2 => if p2.valid then .ok p2 else .error "Not valid"
  | none => .ok piece

/-- Torrent.pieces: populate one piece per expected hash, in order, an
exception escaping the property. -/
def populate_pieces (fs : FS) (piece_directory : List String) :
    List Bytes → Except String (List Piece)
  | [] => .ok []
  | h :: rest =>
    match populate_step fs piece_directory h with
    | .error e => .error e
    | .ok p =>
      match populate_pieces fs piece_directory rest with
      | .error e => .error e
      | .ok ps => .ok (p :: ps)

/-- The piece directory of the C8 failing input. -/
def c8dir : List String := ["save", "t", "_pieces"]

/-- Hex digest of the empty byte string: the file name every empty piece
probes for. -/
def hexEmptyStr : String := hexOfBytes (sha1 [])

/-- The filesystem of the C8 failing input: the probed path holds the bytes
"hell", as does the path load actually reads. -/
def c8fs : FS := fun p =>
  if p = c8dir ++ [hexEmptyStr] then some hellBytes
  else if p = c8dir ++ [hexEmptyStr, hexEmptyStr] then some hellBytes
  else none

/-- C8 divergence: populating the piece map over a file present on disk whose
contents hash wrongly raises Exception("Not valid") and aborts; the clearing
of the buffer is dead code behind the raise, so the mismatched piece is never
cleared and population does not complete. -/
theorem C8_population_raises_not_clears :
    populate_pieces c8fs c8dir [sha1 helloBytes] = .error "Not valid"
    ∧ populate_step c8fs c8dir (sha1 helloBytes)
        ≠ .ok (Piece.clear ⟨sha1 helloBytes, hellBytes⟩) := by
  constructor
  · rfl
  · intro h
    exact Except.noConfusion
      (show (Except.error "Not valid" : Except String Piece)
        = Except.ok (Piece.clear ⟨sha1 helloBytes, hellBytes⟩) from h)

/-! ## torrent.py : create_directory -/

/-- Python str.startswith, on the underlying character lists. -/
def startswith (s pre : String) : Bool := pre.data.isPrefixOf s.data

/-- Python str.endswith, on the underlying character lists. -/
def endswith (s suf : String) : Bool := suf.data.isSuffixOf s.data

/-- os.path.join with a single extra component (POSIX): an absolute second
component replaces the first, otherwise a "/" separates them unless already
there. -/
def os_path_join (a b : String) : String :=
  if startswith b "/" then b
  else if a = "" ∨ endswith a "/" then String.mk (a.data ++ b.data)
  else String.mk (a.data ++ '/' :: b.data)

/-- Torrent.save_directory: os.path.join(self.save_path, self.name). -/
def save_directory (save_path name : String) : String :=
  os_path_join save_path name

/-- The guard of Torrent.create_directory: the RuntimeError fires iff the
joined save_directory does not start with save_path. -/
def create_directory_rejects (save_path name : String) : Bool :=
  ! startswith (save_directory save_path name) save_path

/-- Split a character list at every '/' (the segments of a POSIX path). -/
def splitSlash (l : List Char) : List (List Char) :=
  match l with
  | [] => [[]]
  | c :: rest =>
    let r := splitSlash rest
    if c = '/' then [] :: r
    else
      match r with
      | [] => [[c]]
      | x :: xs => (c :: x) :: xs

/-- Resolve "", "." and ".." segments left to right against a stack. -/
def normGo (stack : List (List Char)) : List (List Char) → List (List Char)
  | [] => stack.reverse
  | s :: rest =>
    if s = ['.', '.'] then normGo stack.tail rest
    else if s = [] ∨ s = ['.'] then normGo stack rest
    else normGo (s :: stack) rest

/-- Join segments with '/'. -/
def joinSlash : List (List Char) → List Char
  | [] => []
  | [x] => x
  | x :: xs => x ++ '/' :: joinSlash xs

/-- The real location an absolute POSIX path names, after resolving ".."
segments; this follows the words of the spec ("a torrent whose name would
escape save_path via .."), which the source never computes. -/
def normalizePath (p : String) : String :=
  String.mk ('/' :: joinSlash (normGo [] (splitSlash p.data)))

/-- C9 divergence: for save_path "/save" and name "../evil" the joined
save_directory "/save/../evil" starts with "/save", so the guard in
create_directory does not reject it, yet the path it names after resolving
".." is "/evil", outside the save root. -/
theorem C9_dotdot_name_not_rejected :
    create_directory_rejects "/save" "../evil" = false
    ∧ save_directory "/save" "../evil" = "/save/../evil"
    ∧ normalizePath (save_directory "/save" "../evil") = "/evil"
    ∧ startswith (normalizePath (save_directory "/save" "../evil")) "/save" = false := by
  refine ⟨rfl, rfl, rfl, rfl⟩

end Pythorrent
